import Mathlib

/-!
# Verification of itag2mqttd

A shallow embedding of the itag2mqttd daemon (Rust) in Lean 4, together with
theorems settling the specification claims about it.

The embedding follows the source files:
* `src/mqtt_client.rs`        — `MqttClient::publish_device`
* `src/config.rs`             — `Config::read`, `Config::parse_config`,
                                `Config::is_adapter_allowed`
* `src/itag_swarm_manager.rs` — `on_device_discovered` device validation
* `src/itag_swarm_manager/device_actor.rs`
                              — `device_manager_loop`, `get_best_adapter`,
                                `monitor_itag_button`

External effects (MQTT publishes, bluer property reads, spawned tasks) are
made explicit: property reads become values carried by the device handles in
the messages, publishes become lists of records, and the per-device actor
loop becomes a step function over its mailbox trace.
-/

namespace Itag2Mqttd

/-! ## MQTT client (`src/mqtt_client.rs`) -/

/-- QoS level used by `try_publish`; the daemon always uses at-least-once. -/
inductive QoS where
  | atMostOnce
  | atLeastOnce
  | exactlyOnce
deriving DecidableEq, Repr

/-- One `try_publish` attempt handed to the rumqttc client: topic, QoS,
retained flag and raw payload bytes. -/
structure PublishAttempt where
  topic : String
  qos : QoS
  retained : Bool
  payload : List Nat
deriving DecidableEq, Repr

/-- Lowercase hex digit for a nibble, as produced by Rust `format!("{:02x}")`:
`0`–`9` then `a`–`f`. -/
def hexDigit (n : Nat) : Char :=
  if n < 10 then Char.ofNat (48 + n) else Char.ofNat (87 + n)

/-- Rendering of one byte as two lowercase zero-padded hex characters,
`format!("{:02x}", b)` for a `u8`. -/
def byteHex (b : Nat) : String :=
  String.mk [hexDigit (b / 16 % 16), hexDigit (b % 16)]

/-- `device_id.iter().map(|b| format!("{:02x}", b)).collect::<String>()`. -/
def deviceIdStr (device_id : List Nat) : String :=
  String.join (device_id.map byteHex)

/-- ASCII byte of `'0'`. -/
def falseBytes : List Nat := [48]

/-- ASCII byte of `'1'`. -/
def trueBytes : List Nat := [49]

/-- `MqttClient::publish_device`: renders the device id as lowercase hex,
then fires two `try_publish` attempts — presence topic first, button topic
second — both at-least-once and both with the caller's retained flag. -/
def publish_device (device_id : List Nat) (retained is_present is_button_clicked : Bool) :
    List PublishAttempt :=
  let device_id_str := deviceIdStr device_id
  let presence_topic := "itag/" ++ device_id_str ++ "/presence"
  let button_topic := "itag/" ++ device_id_str ++ "/button/click"
  [ { topic := presence_topic, qos := QoS.atLeastOnce, retained := retained,
      payload := if is_present then trueBytes else falseBytes },
    { topic := button_topic, qos := QoS.atLeastOnce, retained := retained,
      payload := if is_button_clicked then trueBytes else falseBytes } ]

/-- One call of `MqttClient::publish_device` as seen by its callers in the
device actor and the session. -/
structure PublishCall where
  device_id : List Nat
  retained : Bool
  is_present : Bool
  is_button_clicked : Bool
deriving DecidableEq, Repr

/-- The `try_publish` attempts a `publish_device` call expands to. -/
def PublishCall.attempts (c : PublishCall) : List PublishAttempt :=
  publish_device c.device_id c.retained c.is_present c.is_button_clicked

/-! ## Configuration (`src/config.rs`)

The `configparser` crate is external; an `Ini` value is modelled by the
results of the three lookups `parse_config` performs on it: `get` returns
`Option String`, `getint` returns `Result<Option<i64>, String>`. -/

/-- The three lookups `Config::parse_config` performs on the loaded ini.
`mqtt_port` is the `getint("mqtt", "port")` result: a parse error, `none`
when the key is missing, or the parsed integer. -/
structure IniData where
  mqtt_host : Option String
  mqtt_port : Except String (Option Int)
  bt_adapters : Option String
deriving Repr

structure Config where
  mqtt_host : String
  mqtt_port : Nat
  bt_adapters : List String
deriving DecidableEq, Repr

/-- Rust `str::split(',')` at character level: always at least one piece,
empty pieces kept (`""` splits to `[""]`, `","` to `["", ""]`). -/
def splitComma : List Char → List (List Char)
  | [] => [[]]
  | c :: rest =>
    match splitComma rest with
    | [] => [[]]
    | cur :: others =>
      if c = ',' then [] :: cur :: others else (c :: cur) :: others

/-- Rust `str::trim`: drop whitespace from both ends. -/
def rustTrim (s : String) : String :=
  String.mk (((s.data.dropWhile Char.isWhitespace).reverse.dropWhile
    Char.isWhitespace).reverse)

/-- Rust `str::to_ascii_uppercase` (`Char.toUpper` only uppercases ASCII). -/
def toAsciiUppercase (s : String) : String :=
  String.mk (s.data.map Char.toUpper)

/-- The adapters-list loop of `Config::parse_config`: split the value on
commas, trim each piece, skip empty pieces. -/
def parseAdapters (adapters : String) : List String :=
  ((splitComma adapters.data).map String.mk).foldl
    (fun acc adapter =>
      let adapter_name := rustTrim adapter
      if adapter_name.length == 0 then acc else acc ++ [adapter_name])
    []

/-- `Config::parse_config`. -/
def Config.parse_config (ini : IniData) : Except String Config := do
  let mqtt_host ←
    match ini.mqtt_host with
    | some h => pure h
    | none => Except.error "Missing 'host' in [mqtt] block"
  let mqtt_port ←
    match ini.mqtt_port with
    | Except.error e => Except.error e
    | Except.ok none => Except.error "Missing 'port' in [mqtt] block"
    | Except.ok (some p) => pure p
  let adapters ←
    match ini.bt_adapters with
    | some a => pure a
    | none => Except.error "Missing 'adapters' in [bluetooth] block"
  let mqtt_port_u16 ←
    if 0 ≤ mqtt_port ∧ mqtt_port < 65536 then pure mqtt_port.toNat
    else Except.error "Invalid mqtt port"
  Except.ok { mqtt_host := mqtt_host, mqtt_port := mqtt_port_u16,
              bt_adapters := parseAdapters adapters }

/-- `Config::read`: the `Ini::load` outcome is passed in (file I/O is
external); a parse error is wrapped with the format hint. -/
def Config.read (load_result : Except String IniData) : Except String Config :=
  match load_result with
  | Except.error e => Except.error e
  | Except.ok ini =>
    match Config.parse_config ini with
    | Except.ok config => Except.ok config
    | Except.error err =>
      Except.error (err ++ ".\nHint: Format must be:\n[mqtt]\nhost=xxx\nport=xxx\n[bluetooth]\nadapters=hci1,xxx\n")

/-- `Config::is_adapter_allowed`: empty whitelist accepts everything,
otherwise exact name membership. -/
def Config.is_adapter_allowed (c : Config) (adapter_name : String) : Bool :=
  if c.bt_adapters.length == 0 then true
  else c.bt_adapters.any (fun adapter => adapter == adapter_name)

/-! ## bluer device handles

`bluer::Address` is 6 bytes; here a `List Nat`. A `bluer::Result<T>` is
`Except BluerError T`. A device handle carries the results the bluer calls
of this program would return on it: the embedding makes the external
property reads explicit data. -/

/-- `bluer::ErrorKind` (only the variants this program constructs or needs
to distinguish). -/
inductive ErrorKind where
  | doesNotExist
  | other
deriving DecidableEq, Repr

/-- `bluer::Error`. -/
structure BluerError where
  kind : ErrorKind
  message : String
deriving DecidableEq, Repr

instance exceptDecEq {ε α : Type} [DecidableEq ε] [DecidableEq α] :
    DecidableEq (Except ε α)
  | Except.error e1, Except.error e2 =>
    if h : e1 = e2 then isTrue (by rw [h])
    else isFalse (by intro hh; cases hh; exact h rfl)
  | Except.error _, Except.ok _ => isFalse (by intro h; cases h)
  | Except.ok _, Except.error _ => isFalse (by intro h; cases h)
  | Except.ok a1, Except.ok a2 =>
    if h : a1 = a2 then isTrue (by rw [h])
    else isFalse (by intro hh; cases hh; exact h rfl)

/-- Outcome of the `tokio::select!` racing `device.connect()` against the
5-second timer in `monitor_itag_button`: the connect finished first (with
its result), or the timer fired first. -/
inductive ConnectOutcome where
  | finished (result : Except BluerError Unit)
  | timedOut
deriving DecidableEq, Repr

/-- One arm served by the session's select loop: an item of the general
`device.events()` stream or an item of the button-notification stream.
The modelled stream ends (a `None`) after the listed items. -/
inductive LoopEvent where
  | propertyEvent
  | buttonNotify (data : List Nat)
deriving DecidableEq, Repr

/-- A device handle together with the results of the bluer operations the
program performs on it. `rssi` is the `device.rssi()` read used both by the
poller validation and by arbitration. -/
structure DeviceHandle where
  name : Except BluerError (Option String)
  rssi : Except BluerError (Option Int)
  is_connected : Except BluerError Bool
  connect : ConnectOutcome
  disconnect : Except BluerError Unit
  events : Except BluerError Unit
  button_notify : Except BluerError Unit
  loop_events : List LoopEvent
deriving DecidableEq, Repr

/-! ## Adapter poller validation (`src/itag_swarm_manager.rs`) -/

/-- What a device-added event ends up doing at the registry: a
`device_discovered` dispatch, a `device_removed` (loss) dispatch, or nothing. -/
inductive DispatchOutcome where
  | discovered
  | lost
  | ignored
deriving DecidableEq, Repr

/-- `on_device_discovered` (the validation part, through to the dispatch):
read the advertised name — a read error is a loss, a missing name or one
that is not `"ITAG"` after ASCII-uppercasing and trimming is ignored; then
read the RSSI — an error or an absent value is a loss; otherwise dispatch
discovered. -/
def on_device_discovered (device : DeviceHandle) : DispatchOutcome :=
  match device.name with
  | Except.ok (some name) =>
    if rustTrim (toAsciiUppercase name) ≠ "ITAG" then DispatchOutcome.ignored
    else
      match device.rssi with
      | Except.ok (some _) => DispatchOutcome.discovered
      | Except.ok none => DispatchOutcome.lost
      | Except.error _ => DispatchOutcome.lost
  | Except.ok none => DispatchOutcome.ignored
  | Except.error _ => DispatchOutcome.lost

/-- `handle_device_updated`: resolving the device handle can fail
(`adapter.device(..)`), which is handled as a removal; otherwise validate. -/
def handle_device_updated (device : Option DeviceHandle) : DispatchOutcome :=
  match device with
  | none => DispatchOutcome.lost
  | some d => on_device_discovered d

/-! ## Button/GATT session (`monitor_itag_button`) -/

/-- What a finished session run did: the `publish_device` calls it issued in
order, how many `device.disconnect()` attempts it made, and its
`Result<(), bluer::Error>`. -/
structure SessionRun where
  publishes : List PublishCall
  disconnect_attempts : Nat
  result : Except BluerError Unit
deriving DecidableEq, Repr

/-- The session select loop: each button notification publishes the pressed
then the released record (neither retained); general property events are
ignored; the loop ends when a stream ends. -/
def sessionLoop (device_address : List Nat) : List LoopEvent → List PublishCall
  | [] => []
  | LoopEvent.propertyEvent :: rest => sessionLoop device_address rest
  | LoopEvent.buttonNotify _ :: rest =>
    { device_id := device_address, retained := false,
      is_present := true, is_button_clicked := true } ::
    { device_id := device_address, retained := false,
      is_present := true, is_button_clicked := false } ::
    sessionLoop device_address rest

/-- The connect phase of `monitor_itag_button` (the `if !is_connected` block):
returns `none` to fall through to the session body, or `some` an early
return, together with the number of disconnect attempts made. -/
def connectPhase (device : DeviceHandle) : Option (Except BluerError Unit) × Nat :=
  match device.is_connected with
  | Except.error e => (some (Except.error e), 0)
  | Except.ok true => (none, 0)
  | Except.ok false =>
    match device.connect with
    | ConnectOutcome.finished (Except.ok _) => (none, 0)
    | ConnectOutcome.finished (Except.error error) =>
      match device.disconnect with
      | Except.ok _ => (some (Except.error error), 1)
      | Except.error e2 => (some (Except.error e2), 1)
    | ConnectOutcome.timedOut =>
      match device.disconnect with
      | Except.ok _ =>
        (some (Except.error { kind := ErrorKind.doesNotExist,
                              message := "connection timeout" }), 1)
      | Except.error e2 => (some (Except.error e2), 1)

/-- `monitor_itag_button`: connect (bounded by the 5-second race), open the
event and button-notification streams, silence the beeper (best effort,
ignored), publish non-retained present, run the select loop, publish
non-retained absent. -/
def monitor_itag_button (device_address : List Nat) (device : DeviceHandle) : SessionRun :=
  match connectPhase device with
  | (some earlyReturn, d) => { publishes := [], disconnect_attempts := d, result := earlyReturn }
  | (none, d) =>
    match device.events with
    | Except.error e => { publishes := [], disconnect_attempts := d, result := Except.error e }
    | Except.ok _ =>
      match device.button_notify with
      | Except.error e => { publishes := [], disconnect_attempts := d, result := Except.error e }
      | Except.ok _ =>
        { publishes :=
            { device_id := device_address, retained := false,
              is_present := true, is_button_clicked := false } ::
            (sessionLoop device_address device.loop_events ++
              [{ device_id := device_address, retained := false,
                 is_present := false, is_button_clicked := false }]),
          disconnect_attempts := d,
          result := Except.ok () }

/-! ## Device actor (`device_manager_loop`) -/

/-- The actor mailbox messages (`DeviceMessage` in the source). -/
inductive DeviceMessage where
  | stabilized
  | deviceDiscovered (adapter_address : List Nat) (device : DeviceHandle)
  | deviceLost (adapter_address : List Nat)
  | buttonMonitorExit
deriving DecidableEq, Repr

/-- `sleep(Duration::from_millis(1000))` before the self-scheduled
`Stabilized` message: the timer task spawned at actor creation. -/
def stabilization_delay_ms : Nat := 1000

/-- `sleep(Duration::from_secs(5))` raced against `device.connect()`. -/
def connect_timeout_secs : Nat := 5

/-- The task spawned by the actor around a session: run the monitor, discard
its result, and always send `ButtonMonitorExit` back to the actor. Returns
the session run and the messages the task sends to the mailbox. -/
def sessionTask (device_address : List Nat) (device : DeviceHandle) :
    SessionRun × List DeviceMessage :=
  (monitor_itag_button device_address device, [DeviceMessage.buttonMonitorExit])

/-- The `ConnectedAdapter` value cached in the visibility map. -/
structure ConnectedAdapter where
  device : DeviceHandle
deriving DecidableEq, Repr

/-- The visibility map `discovered_on_adapter : HashMap<Address, ConnectedAdapter>`
as an association list (one iteration order of the unordered map). -/
abbrev VisibilityMap := List (List Nat × ConnectedAdapter)

/-- `HashMap::insert`: overwrite an existing key in place, else append;
also returns whether the key was previously present (the source logs on a
first sighting). -/
def mapInsert (m : VisibilityMap) (key : List Nat) (value : ConnectedAdapter) :
    VisibilityMap × Bool :=
  match m with
  | [] => ([(key, value)], false)
  | (k, v) :: rest =>
    if k = key then ((k, value) :: rest, true)
    else
      let (rest2, present) := mapInsert rest key value
      ((k, v) :: rest2, present)

/-- `HashMap::remove`: drop the key if present; also returns whether it was
present (the source logs when the map becomes empty). -/
def mapRemove (m : VisibilityMap) (key : List Nat) : VisibilityMap × Bool :=
  match m with
  | [] => ([], false)
  | (k, v) :: rest =>
    if k = key then (rest, true)
    else
      let (rest2, present) := mapRemove rest key
      ((k, v) :: rest2, present)

/-- One iteration of the `get_best_adapter` loop body: a successful RSSI
read replaces the candidate when strictly greater (or when there is no
candidate yet); a failed or absent reading leaves the candidate alone. -/
def bestCandidateStep (best_candidate : Option (Int × ConnectedAdapter))
    (entry : List Nat × ConnectedAdapter) : Option (Int × ConnectedAdapter) :=
  match entry.2.device.rssi with
  | Except.ok (some this_rssi) =>
    match best_candidate with
    | some (best_rssi, best) =>
      if this_rssi > best_rssi then some (this_rssi, entry.2) else some (best_rssi, best)
    | none => some (this_rssi, entry.2)
  | _ => best_candidate

/-- `get_best_adapter`: iterate the visibility map reading each cached
device's live RSSI; keep the entry with the strictly greatest successful
reading (first such entry wins ties); `none` when no read succeeds. -/
def get_best_adapter (adapters : VisibilityMap) : Option ConnectedAdapter :=
  match adapters.foldl bestCandidateStep none with
  | some (_, adapter) => some adapter
  | none => none

/-- The mutable state of one `device_manager_loop`, plus ghost observation
fields: `spawned` counts sessions the loop has spawned, `exits_processed`
counts `ButtonMonitorExit` messages it has consumed, `arbitrations` counts
`get_best_adapter` calls, and `publishes` records every `publish_device`
call in program order (a spawned session's publishes are appended at spawn,
which preserves each session's internal order and the fact that the
creation-time publish precedes them all). -/
structure ActorState where
  device_address : List Nat
  discovered_on_adapter : VisibilityMap
  stabilized : Bool
  has_button_monitor : Bool
  spawned : Nat
  exits_processed : Nat
  arbitrations : Nat
  publishes : List PublishCall
deriving Repr

/-- Actor state right after `device_manager_loop` starts, before any message
is received: empty visibility map, both flags clear, and the retained
known-but-not-present publish already issued. -/
def initActorState (device_address : List Nat) : ActorState :=
  { device_address := device_address
    discovered_on_adapter := []
    stabilized := false
    has_button_monitor := false
    spawned := 0
    exits_processed := 0
    arbitrations := 0
    publishes := [{ device_id := device_address, retained := true,
                    is_present := false, is_button_clicked := false }] }

/-- The `match event` block of `device_manager_loop`. -/
def processMessage (s : ActorState) (m : DeviceMessage) : ActorState :=
  match m with
  | DeviceMessage.stabilized => { s with stabilized := true }
  | DeviceMessage.deviceDiscovered adapter_address device =>
    { s with discovered_on_adapter :=
        (mapInsert s.discovered_on_adapter adapter_address { device := device }).1 }
  | DeviceMessage.deviceLost adapter_address =>
    { s with discovered_on_adapter :=
        (mapRemove s.discovered_on_adapter adapter_address).1 }
  | DeviceMessage.buttonMonitorExit =>
    { s with has_button_monitor := false, exits_processed := s.exits_processed + 1 }

/-- The tail of each `device_manager_loop` iteration: skip everything until
stabilized; otherwise, when no button monitor is active, arbitrate and spawn
a session on the winning adapter. -/
def arbitrateAndSpawn (s : ActorState) : ActorState :=
  if !s.stabilized then s
  else if !s.has_button_monitor then
    match get_best_adapter s.discovered_on_adapter with
    | some adapter =>
      { s with has_button_monitor := true
               arbitrations := s.arbitrations + 1
               spawned := s.spawned + 1
               publishes := s.publishes ++
                 (monitor_itag_button s.device_address adapter.device).publishes }
    | none => { s with arbitrations := s.arbitrations + 1 }
  else s

/-- One full iteration of the actor loop on one mailbox message. -/
def actorStep (s : ActorState) (m : DeviceMessage) : ActorState :=
  arbitrateAndSpawn (processMessage s m)

/-- The actor loop run over a mailbox trace. -/
def runActor (device_address : List Nat) (msgs : List DeviceMessage) : ActorState :=
  msgs.foldl actorStep (initActorState device_address)

/-! ## Arbitration lemmas (`get_best_adapter`) -/

theorem foldl_best_mono (l : VisibilityMap) :
    ∀ (r0 : Int) (a0 : ConnectedAdapter) (r : Int) (a : ConnectedAdapter),
    l.foldl bestCandidateStep (some (r0, a0)) = some (r, a) → r0 ≤ r := by
  induction l with
  | nil =>
    intro r0 a0 r a h
    simp only [List.foldl_nil, Option.some.injEq, Prod.mk.injEq] at h
    exact le_of_eq h.1
  | cons e l ih =>
    intro r0 a0 r a h
    rw [List.foldl_cons] at h
    cases hr : e.2.device.rssi with
    | error err =>
      simp only [bestCandidateStep, hr] at h
      exact ih r0 a0 r a h
    | ok vo =>
      cases vo with
      | none =>
        simp only [bestCandidateStep, hr] at h
        exact ih r0 a0 r a h
      | some ri =>
        simp only [bestCandidateStep, hr] at h
        by_cases hgt : ri > r0
        · rw [if_pos hgt] at h
          exact le_trans (le_of_lt hgt) (ih ri e.2 r a h)
        · rw [if_neg hgt] at h
          exact ih r0 a0 r a h

theorem foldl_best_some (l : VisibilityMap) :
    ∀ (acc : Option (Int × ConnectedAdapter)) (r : Int) (a : ConnectedAdapter),
    l.foldl bestCandidateStep acc = some (r, a) →
    acc = some (r, a) ∨ (a.device.rssi = Except.ok (some r) ∧ ∃ k, (k, a) ∈ l) := by
  induction l with
  | nil =>
    intro acc r a h
    simp only [List.foldl_nil] at h
    exact Or.inl h
  | cons e l ih =>
    intro acc r a h
    rw [List.foldl_cons] at h
    have lift : bestCandidateStep acc e = some (r, a) ∨
        (a.device.rssi = Except.ok (some r) ∧ ∃ k, (k, a) ∈ l) := ih _ r a h
    rcases lift with hstep | ⟨hrssi, k, hk⟩
    · cases hr : e.2.device.rssi with
      | error err =>
        simp only [bestCandidateStep, hr] at hstep
        exact Or.inl hstep
      | ok vo =>
        cases vo with
        | none =>
          simp only [bestCandidateStep, hr] at hstep
          exact Or.inl hstep
        | some ri =>
          cases acc with
          | none =>
            simp only [bestCandidateStep, hr, Option.some.injEq, Prod.mk.injEq] at hstep
            refine Or.inr ⟨?_, e.1, ?_⟩
            · rw [← hstep.2, ← hstep.1]; exact hr
            · rw [← hstep.2]; simp
          | some p =>
            rcases p with ⟨r0, a0⟩
            simp only [bestCandidateStep, hr] at hstep
            by_cases hgt : ri > r0
            · rw [if_pos hgt] at hstep
              simp only [Option.some.injEq, Prod.mk.injEq] at hstep
              refine Or.inr ⟨?_, e.1, ?_⟩
              · rw [← hstep.2, ← hstep.1]; exact hr
              · rw [← hstep.2]; simp
            · rw [if_neg hgt] at hstep
              exact Or.inl hstep
    · exact Or.inr ⟨hrssi, k, List.mem_cons_of_mem e hk⟩

theorem foldl_best_max (l : VisibilityMap) :
    ∀ (acc : Option (Int × ConnectedAdapter)) (r : Int) (a : ConnectedAdapter),
    l.foldl bestCandidateStep acc = some (r, a) →
    ∀ e ∈ l, ∀ r', e.2.device.rssi = Except.ok (some r') → r' ≤ r := by
  induction l with
  | nil =>
    intro acc r a _ e he
    exact absurd he (List.not_mem_nil e)
  | cons e l ih =>
    intro acc r a h e' he' r' hrssi
    rw [List.foldl_cons] at h
    rcases List.mem_cons.mp he' with heq | hmem
    · subst heq
      have hstep : ∃ r1 a1, bestCandidateStep acc e' = some (r1, a1) ∧ r' ≤ r1 := by
        cases acc with
        | none =>
          refine ⟨r', e'.2, ?_, le_refl r'⟩
          simp only [bestCandidateStep, hrssi]
        | some p =>
          rcases p with ⟨r0, a0⟩
          by_cases hgt : r' > r0
          · refine ⟨r', e'.2, ?_, le_refl r'⟩
            simp only [bestCandidateStep, hrssi, if_pos hgt]
          · refine ⟨r0, a0, ?_, le_of_not_lt hgt⟩
            simp only [bestCandidateStep, hrssi, if_neg hgt]
      rcases hstep with ⟨r1, a1, hs, hle⟩
      rw [hs] at h
      exact le_trans hle (foldl_best_mono l r1 a1 r a h)
    · exact ih _ r a h e' hmem r' hrssi

theorem foldl_best_none (l : VisibilityMap)
    (hfail : ∀ e ∈ l, ∀ r, e.2.device.rssi ≠ Except.ok (some r)) :
    l.foldl bestCandidateStep none = none := by
  induction l with
  | nil => rfl
  | cons e l ih =>
    rw [List.foldl_cons]
    have hstep : bestCandidateStep none e = none := by
      cases hr : e.2.device.rssi with
      | error err => simp only [bestCandidateStep, hr]
      | ok vo =>
        cases vo with
        | none => simp only [bestCandidateStep, hr]
        | some ri => exact absurd hr (hfail e (List.mem_cons_self e l) ri)
    rw [hstep]
    exact ih (fun e' he' => hfail e' (List.mem_cons_of_mem e he'))

theorem foldl_best_some_acc (l : VisibilityMap) :
    ∀ x : Int × ConnectedAdapter, ∃ y, l.foldl bestCandidateStep (some x) = some y := by
  induction l with
  | nil => intro x; exact ⟨x, rfl⟩
  | cons e l ih =>
    intro x
    rw [List.foldl_cons]
    rcases x with ⟨r0, a0⟩
    cases hr : e.2.device.rssi with
    | error err =>
      simp only [bestCandidateStep, hr]
      exact ih _
    | ok vo =>
      cases vo with
      | none =>
        simp only [bestCandidateStep, hr]
        exact ih _
      | some ri =>
        simp only [bestCandidateStep, hr]
        by_cases hgt : ri > r0
        · rw [if_pos hgt]; exact ih _
        · rw [if_neg hgt]; exact ih _

theorem foldl_best_success_some (l : VisibilityMap) :
    (∃ e ∈ l, ∃ r, e.2.device.rssi = Except.ok (some r)) →
    ∃ y, l.foldl bestCandidateStep none = some y := by
  induction l with
  | nil =>
    rintro ⟨e, he, _⟩
    exact absurd he (List.not_mem_nil e)
  | cons e l ih =>
    rintro ⟨e', he', r, hr⟩
    rw [List.foldl_cons]
    rcases List.mem_cons.mp he' with heq | hmem
    · subst heq
      simp only [bestCandidateStep, hr]
      exact foldl_best_some_acc l _
    · cases hstep : bestCandidateStep none e with
      | none => exact ih ⟨e', hmem, r, hr⟩
      | some y => exact foldl_best_some_acc l y

/-- A device handle fixture for concrete instances of the theorems. -/
def testDevice (rssi : Except BluerError (Option Int)) : DeviceHandle :=
  { name := Except.ok (some "ITAG")
    rssi := rssi
    is_connected := Except.ok true
    connect := ConnectOutcome.finished (Except.ok ())
    disconnect := Except.ok ()
    events := Except.ok ()
    button_notify := Except.ok ()
    loop_events := [] }

/-- Fixture: a device handle seen at RSSI −70. -/
def deviceA : DeviceHandle := testDevice (Except.ok (some (-70)))

/-- Fixture: a device handle seen at RSSI −50. -/
def deviceB : DeviceHandle := testDevice (Except.ok (some (-50)))

/-- C1: for every visibility map, `get_best_adapter` returns an adapter whose
RSSI read succeeded with a value and is numerically ≥ every other successful
reading in the map; adapters whose read fails or is absent are never
selected; when no read succeeds (in particular on the empty map) it returns
`none`; and with adapter A at −70 and adapter B at −50 (either iteration
order) B is selected. -/
theorem get_best_adapter_selects_max :
    (∀ (adapters : VisibilityMap) (a : ConnectedAdapter),
        get_best_adapter adapters = some a →
        ∃ r, a.device.rssi = Except.ok (some r) ∧ (∃ k, (k, a) ∈ adapters) ∧
          ∀ e ∈ adapters, ∀ r', e.2.device.rssi = Except.ok (some r') → r' ≤ r)
    ∧ (∀ adapters : VisibilityMap,
        (∃ e ∈ adapters, ∃ r, e.2.device.rssi = Except.ok (some r)) →
        ∃ a, get_best_adapter adapters = some a)
    ∧ (∀ adapters : VisibilityMap,
        (∀ e ∈ adapters, ∀ r, e.2.device.rssi ≠ Except.ok (some r)) →
        get_best_adapter adapters = none)
    ∧ get_best_adapter [] = none
    ∧ (∀ (kA kB : List Nat) (dA dB : DeviceHandle),
        dA.rssi = Except.ok (some (-70)) → dB.rssi = Except.ok (some (-50)) →
        get_best_adapter [(kA, { device := dA }), (kB, { device := dB })] =
          some { device := dB } ∧
        get_best_adapter [(kB, { device := dB }), (kA, { device := dA })] =
          some { device := dB }) := by
  refine ⟨?_, ?_, ?_, rfl, ?_⟩
  · intro adapters a h
    unfold get_best_adapter at h
    cases hfold : adapters.foldl bestCandidateStep none with
    | none =>
      simp only [hfold] at h
      exact Option.noConfusion h
    | some p =>
      rcases p with ⟨r, a'⟩
      simp only [hfold, Option.some.injEq] at h
      subst h
      rcases foldl_best_some adapters none r a' hfold with hacc | ⟨hrssi, k, hk⟩
      · exact Option.noConfusion hacc
      · exact ⟨r, hrssi, ⟨k, hk⟩, foldl_best_max adapters none r a' hfold⟩
  · intro adapters hsucc
    unfold get_best_adapter
    rcases foldl_best_success_some adapters hsucc with ⟨⟨rb, ab⟩, hy⟩
    rw [hy]
    exact ⟨ab, rfl⟩
  · intro adapters hfail
    unfold get_best_adapter
    rw [foldl_best_none adapters hfail]
  · intro kA kB dA dB hA hB
    constructor
    · unfold get_best_adapter
      simp only [List.foldl_cons, List.foldl_nil, bestCandidateStep, hA, hB]
      norm_num
    · unfold get_best_adapter
      simp only [List.foldl_cons, List.foldl_nil, bestCandidateStep, hA, hB]
      norm_num

/-- C1 at a concrete input: with A at −70 on adapter `[0]` and B at −50 on
adapter `[1]`, arbitration selects B in both iteration orders. -/
theorem get_best_adapter_selects_max_witness :
    get_best_adapter [([0], { device := deviceA }), ([1], { device := deviceB })] =
      some { device := deviceB } ∧
    get_best_adapter [([1], { device := deviceB }), ([0], { device := deviceA })] =
      some { device := deviceB } :=
  get_best_adapter_selects_max.2.2.2.2 [0] [1] deviceA deviceB rfl rfl

/-! ## Actor-loop invariants (`device_manager_loop`) -/

/-- `1` when the active-session flag is set, else `0`. -/
def monitorBit (s : ActorState) : Nat := if s.has_button_monitor then 1 else 0

/-- Session accounting: the loop has spawned exactly as many sessions as it
has processed exit messages for, plus one iff the flag is currently set. -/
def sessionInvariant (s : ActorState) : Prop :=
  s.spawned ≤ s.exits_processed + monitorBit s

theorem sessionInvariant_init (addr : List Nat) : sessionInvariant (initActorState addr) := by
  simp [sessionInvariant, initActorState, monitorBit]

theorem sessionInvariant_processMessage (s : ActorState) (m : DeviceMessage)
    (h : sessionInvariant s) : sessionInvariant (processMessage s m) := by
  cases m with
  | stabilized => simpa [sessionInvariant, monitorBit, processMessage] using h
  | deviceDiscovered a d => simpa [sessionInvariant, monitorBit, processMessage] using h
  | deviceLost a => simpa [sessionInvariant, monitorBit, processMessage] using h
  | buttonMonitorExit =>
    simp only [sessionInvariant, monitorBit, processMessage] at h ⊢
    split at h <;> simp <;> omega

/-- When the actor is not yet stabilized the whole arbitration block is
skipped (`continue`). -/
theorem arbitrate_not_stabilized (s : ActorState) (h : s.stabilized = false) :
    arbitrateAndSpawn s = s := by
  unfold arbitrateAndSpawn
  rw [h]
  simp

/-- Case analysis of the arbitration block: it either leaves the spawn/flag
and publish state alone, or — only when stabilized, with the flag clear and
a winning adapter — spawns: flag set, spawn count up one, the session's
publishes appended. In all cases the other fields are untouched. -/
theorem arbitrate_cases (s : ActorState) :
    ((arbitrateAndSpawn s).stabilized = s.stabilized ∧
     (arbitrateAndSpawn s).device_address = s.device_address ∧
     (arbitrateAndSpawn s).exits_processed = s.exits_processed ∧
     (arbitrateAndSpawn s).discovered_on_adapter = s.discovered_on_adapter) ∧
    (((arbitrateAndSpawn s).spawned = s.spawned ∧
      (arbitrateAndSpawn s).has_button_monitor = s.has_button_monitor ∧
      (arbitrateAndSpawn s).publishes = s.publishes) ∨
     (s.stabilized = true ∧ s.has_button_monitor = false ∧
      ∃ adapter, get_best_adapter s.discovered_on_adapter = some adapter ∧
        (arbitrateAndSpawn s).spawned = s.spawned + 1 ∧
        (arbitrateAndSpawn s).has_button_monitor = true ∧
        (arbitrateAndSpawn s).publishes = s.publishes ++
          (monitor_itag_button s.device_address adapter.device).publishes)) := by
  unfold arbitrateAndSpawn
  cases hs : s.stabilized with
  | false => simp [hs]
  | true =>
    cases hb : s.has_button_monitor with
    | true => simp [hs, hb]
    | false =>
      cases hg : get_best_adapter s.discovered_on_adapter with
      | none => simp
      | some adapter =>
        refine ⟨⟨?_, ?_, ?_, ?_⟩, Or.inr ⟨rfl, rfl, adapter, rfl, ?_, ?_, ?_⟩⟩ <;> simp

theorem sessionInvariant_arbitrate (s : ActorState) (h : sessionInvariant s) :
    sessionInvariant (arbitrateAndSpawn s) := by
  rcases arbitrate_cases s with ⟨_, hA | hB⟩
  · rcases hA with ⟨h1, h2, _⟩
    unfold sessionInvariant monitorBit at h ⊢
    rw [h1, h2, (arbitrate_cases s).1.2.2.1]
    exact h
  · rcases hB with ⟨_, hb, _, _, h1, h2, _⟩
    unfold sessionInvariant monitorBit at h ⊢
    rw [hb] at h
    simp at h
    rw [h1, h2, (arbitrate_cases s).1.2.2.1]
    simp
    omega

theorem sessionInvariant_step (s : ActorState) (m : DeviceMessage)
    (h : sessionInvariant s) : sessionInvariant (actorStep s m) :=
  sessionInvariant_arbitrate _ (sessionInvariant_processMessage s m h)

theorem sessionInvariant_foldl (l : List DeviceMessage) :
    ∀ s : ActorState, sessionInvariant s → sessionInvariant (l.foldl actorStep s) := by
  induction l with
  | nil => intro s hs; exact hs
  | cons m l ih => intro s hs; exact ih _ (sessionInvariant_step s m hs)

theorem sessionInvariant_run (addr : List Nat) (msgs : List DeviceMessage) :
    sessionInvariant (runActor addr msgs) :=
  sessionInvariant_foldl msgs _ (sessionInvariant_init addr)

/-- The arbitration block never clears the active-session flag. -/
theorem arbitrate_keeps_monitor (s : ActorState) (h : s.has_button_monitor = true) :
    (arbitrateAndSpawn s).has_button_monitor = true := by
  unfold arbitrateAndSpawn
  cases hs : s.stabilized with
  | false => simpa using h
  | true => simp [h]

/-- C2: in every reachable actor state, the number of sessions spawned never
exceeds the number of processed exit messages plus the flag bit — so at most
one spawned session is unaccounted-for (active) at a time; a spawn happens
only with the flag clear and sets it in the same iteration; and the flag is
cleared only by processing `ButtonMonitorExit`. -/
theorem actor_at_most_one_session :
    (∀ (addr : List Nat) (msgs : List DeviceMessage),
        (runActor addr msgs).spawned ≤
          (runActor addr msgs).exits_processed + monitorBit (runActor addr msgs) ∧
        (runActor addr msgs).spawned ≤ (runActor addr msgs).exits_processed + 1)
    ∧ (∀ s : ActorState, (arbitrateAndSpawn s).spawned ≠ s.spawned →
        s.has_button_monitor = false ∧ (arbitrateAndSpawn s).has_button_monitor = true ∧
        (arbitrateAndSpawn s).spawned = s.spawned + 1)
    ∧ (∀ (s : ActorState) (m : DeviceMessage),
        s.has_button_monitor = true → (actorStep s m).has_button_monitor = false →
        m = DeviceMessage.buttonMonitorExit) := by
  refine ⟨?_, ?_, ?_⟩
  · intro addr msgs
    have h := sessionInvariant_run addr msgs
    unfold sessionInvariant at h
    refine ⟨h, le_trans h ?_⟩
    have : monitorBit (runActor addr msgs) ≤ 1 := by
      unfold monitorBit; split <;> omega
    omega
  · intro s hneq
    unfold arbitrateAndSpawn at hneq ⊢
    cases hs : s.stabilized with
    | false => simp [hs] at hneq
    | true =>
      cases hb : s.has_button_monitor with
      | true => simp [hs, hb] at hneq
      | false =>
        cases hg : get_best_adapter s.discovered_on_adapter with
        | none => simp [hs, hb, hg] at hneq
        | some adapter => simp [hs, hb, hg]
  · intro s m hflag hcleared
    cases m with
    | buttonMonitorExit => rfl
    | stabilized =>
      exfalso
      have : (processMessage s DeviceMessage.stabilized).has_button_monitor = true := by
        simpa [processMessage] using hflag
      rw [actorStep, arbitrate_keeps_monitor _ this] at hcleared
      exact Bool.true_eq_false ▸ (by simp at hcleared)
    | deviceDiscovered a d =>
      exfalso
      have : (processMessage s (DeviceMessage.deviceDiscovered a d)).has_button_monitor = true := by
        simpa [processMessage] using hflag
      rw [actorStep, arbitrate_keeps_monitor _ this] at hcleared
      exact Bool.true_eq_false ▸ (by simp at hcleared)
    | deviceLost a =>
      exfalso
      have : (processMessage s (DeviceMessage.deviceLost a)).has_button_monitor = true := by
        simpa [processMessage] using hflag
      rw [actorStep, arbitrate_keeps_monitor _ this] at hcleared
      exact Bool.true_eq_false ▸ (by simp at hcleared)

/-- Fixture: a stabilized, sessionless actor state that sees the device on
one adapter with a good RSSI (so the next arbitration spawns). -/
def spawnReadyState : ActorState :=
  { device_address := [0, 0, 0, 0, 0, 1]
    discovered_on_adapter := [([0], { device := deviceB })]
    stabilized := true
    has_button_monitor := false
    spawned := 0
    exits_processed := 0
    arbitrations := 0
    publishes := [] }

/-- Fixture: an actor state with an active session and no visibility. -/
def monitoringState : ActorState :=
  { spawnReadyState with
      discovered_on_adapter := []
      has_button_monitor := true
      spawned := 1 }

/-- C2 at concrete inputs: the invariant on an empty trace; a spawn from a
spawn-ready state requires and sets the flag; and the only message that
clears a set flag is `ButtonMonitorExit`. -/
theorem actor_at_most_one_session_witness :
    ((runActor [0, 0, 0, 0, 0, 1] []).spawned ≤
        (runActor [0, 0, 0, 0, 0, 1] []).exits_processed +
          monitorBit (runActor [0, 0, 0, 0, 0, 1] []) ∧
      (runActor [0, 0, 0, 0, 0, 1] []).spawned ≤
        (runActor [0, 0, 0, 0, 0, 1] []).exits_processed + 1) ∧
    (spawnReadyState.has_button_monitor = false ∧
      (arbitrateAndSpawn spawnReadyState).has_button_monitor = true ∧
      (arbitrateAndSpawn spawnReadyState).spawned = spawnReadyState.spawned + 1) ∧
    DeviceMessage.buttonMonitorExit = DeviceMessage.buttonMonitorExit :=
  ⟨actor_at_most_one_session.1 [0, 0, 0, 0, 0, 1] [],
   actor_at_most_one_session.2.1 spawnReadyState (by decide),
   actor_at_most_one_session.2.2 monitoringState DeviceMessage.buttonMonitorExit rfl (by decide)⟩

/-! ## Stabilization (C3) -/

/-- Invariant of a not-yet-stabilized actor: flag unset, no arbitration has
ever run, no session has ever been spawned. -/
def preStabilized (s : ActorState) : Prop :=
  s.stabilized = false ∧ s.arbitrations = 0 ∧ s.spawned = 0

theorem preStabilized_step (s : ActorState) (m : DeviceMessage)
    (hm : m ≠ DeviceMessage.stabilized) (h : preStabilized s) :
    preStabilized (actorStep s m) := by
  have h1 : preStabilized (processMessage s m) := by
    cases m with
    | stabilized => exact absurd rfl hm
    | deviceDiscovered a d => simpa [preStabilized, processMessage] using h
    | deviceLost a => simpa [preStabilized, processMessage] using h
    | buttonMonitorExit => simpa [preStabilized, processMessage] using h
  unfold actorStep
  rw [arbitrate_not_stabilized _ h1.1]
  exact h1

theorem preStabilized_foldl (l : List DeviceMessage) :
    ∀ s : ActorState, (∀ m ∈ l, m ≠ DeviceMessage.stabilized) → preStabilized s →
    preStabilized (l.foldl actorStep s) := by
  induction l with
  | nil => intro s _ hs; exact hs
  | cons m l ih =>
    intro s hl hs
    exact ih _ (fun m' hm' => hl m' (List.mem_cons_of_mem m hm'))
      (preStabilized_step s m (hl m (List.mem_cons_self m l)) hs)

theorem stabilized_step_mono (s : ActorState) (m : DeviceMessage)
    (h : s.stabilized = true) : (actorStep s m).stabilized = true := by
  have h1 : (processMessage s m).stabilized = true := by
    cases m with
    | stabilized => simp [processMessage]
    | deviceDiscovered a d => simpa [processMessage] using h
    | deviceLost a => simpa [processMessage] using h
    | buttonMonitorExit => simpa [processMessage] using h
  unfold actorStep
  rw [(arbitrate_cases (processMessage s m)).1.1]
  exact h1

theorem stabilized_foldl_mono (l : List DeviceMessage) :
    ∀ s : ActorState, s.stabilized = true → (l.foldl actorStep s).stabilized = true := by
  induction l with
  | nil => intro s h; exact h
  | cons m l ih => intro s h; exact ih _ (stabilized_step_mono s m h)

/-- C3: on any mailbox trace that does not contain the `Stabilized` message
— however many `Discovered` messages from however many adapters it holds —
the actor has run no arbitration and spawned no session and its stabilized
flag is still clear; once set by `Stabilized` (self-scheduled 1000 ms after
creation) the flag survives every further message. -/
theorem no_arbitration_before_stabilized :
    (∀ (addr : List Nat) (msgs : List DeviceMessage),
        (∀ m ∈ msgs, m ≠ DeviceMessage.stabilized) →
        (runActor addr msgs).stabilized = false ∧
        (runActor addr msgs).arbitrations = 0 ∧ (runActor addr msgs).spawned = 0)
    ∧ (∀ (s : ActorState) (m : DeviceMessage),
        s.stabilized = true → (actorStep s m).stabilized = true)
    ∧ (∀ (addr : List Nat) (msgs extra : List DeviceMessage),
        (runActor addr msgs).stabilized = true →
        (runActor addr (msgs ++ extra)).stabilized = true)
    ∧ stabilization_delay_ms = 1000 := by
  refine ⟨?_, stabilized_step_mono, ?_, rfl⟩
  · intro addr msgs hmsgs
    exact preStabilized_foldl msgs _ hmsgs ⟨rfl, rfl, rfl⟩
  · intro addr msgs extra h
    unfold runActor at h ⊢
    rw [List.foldl_append]
    exact stabilized_foldl_mono extra _ h

/-- C3 at concrete inputs: two discoveries and a loss without `Stabilized`
leave the actor unstabilized with nothing spawned; and the stabilized flag
survives a subsequent loss message. -/
theorem no_arbitration_before_stabilized_witness :
    ((runActor [0, 0, 0, 0, 0, 1]
        [DeviceMessage.deviceDiscovered [0] deviceA,
         DeviceMessage.deviceDiscovered [1] deviceB,
         DeviceMessage.deviceLost [0]]).stabilized = false ∧
      (runActor [0, 0, 0, 0, 0, 1]
        [DeviceMessage.deviceDiscovered [0] deviceA,
         DeviceMessage.deviceDiscovered [1] deviceB,
         DeviceMessage.deviceLost [0]]).arbitrations = 0 ∧
      (runActor [0, 0, 0, 0, 0, 1]
        [DeviceMessage.deviceDiscovered [0] deviceA,
         DeviceMessage.deviceDiscovered [1] deviceB,
         DeviceMessage.deviceLost [0]]).spawned = 0) ∧
    (runActor [0, 0, 0, 0, 0, 1]
        ([DeviceMessage.stabilized] ++ [DeviceMessage.deviceLost [0]])).stabilized = true :=
  ⟨no_arbitration_before_stabilized.1 [0, 0, 0, 0, 0, 1] _ (by decide),
   no_arbitration_before_stabilized.2.2.1 [0, 0, 0, 0, 0, 1]
     [DeviceMessage.stabilized] [DeviceMessage.deviceLost [0]] (by decide)⟩

/-! ## Publish ordering and retained flags (C4) -/

theorem publish_device_retained_eq (id : List Nat) (r p b : Bool) :
    ∀ a ∈ publish_device id r p b, a.retained = r := by
  intro a ha
  simp only [publish_device, List.mem_cons, List.not_mem_nil, or_false] at ha
  rcases ha with h | h <;> rw [h]

theorem sessionLoop_not_retained (addr : List Nat) :
    ∀ evs : List LoopEvent, ∀ c ∈ sessionLoop addr evs, c.retained = false := by
  intro evs
  induction evs with
  | nil => intro c hc; exact absurd hc (List.not_mem_nil c)
  | cons e evs ih =>
    cases e with
    | propertyEvent =>
      intro c hc
      exact ih c (by simpa [sessionLoop] using hc)
    | buttonNotify data =>
      intro c hc
      simp only [sessionLoop, List.mem_cons] at hc
      rcases hc with h | h | h
      · rw [h]
      · rw [h]
      · exact ih c h

theorem monitor_publishes_not_retained (addr : List Nat) (dev : DeviceHandle) :
    ∀ c ∈ (monitor_itag_button addr dev).publishes, c.retained = false := by
  intro c hc
  unfold monitor_itag_button at hc
  cases hcp : connectPhase dev with
  | mk elt dcount =>
    simp only [hcp] at hc
    cases elt with
    | some e => simp at hc
    | none =>
      cases he : dev.events with
      | error e => simp only [he] at hc; simp at hc
      | ok u =>
        simp only [he] at hc
        cases hb : dev.button_notify with
        | error e => simp only [hb] at hc; simp at hc
        | ok u2 =>
          simp only [hb] at hc
          simp only [List.mem_cons, List.mem_append, List.not_mem_nil, or_false] at hc
          rcases hc with h | h | h
          · rw [h]
          · exact sessionLoop_not_retained addr dev.loop_events c h
          · rw [h]

theorem processMessage_address (s : ActorState) (m : DeviceMessage) :
    (processMessage s m).device_address = s.device_address := by
  cases m <;> rfl

theorem processMessage_publishes (s : ActorState) (m : DeviceMessage) :
    (processMessage s m).publishes = s.publishes := by
  cases m <;> rfl

/-- Shape of the actor's publish history: the retained known-but-not-present
call issued at creation first, only non-retained calls after it. -/
def publishesShape (s : ActorState) : Prop :=
  ∃ rest, s.publishes =
    { device_id := s.device_address, retained := true, is_present := false,
      is_button_clicked := false } :: rest ∧ ∀ c ∈ rest, c.retained = false

theorem publishesShape_init (addr : List Nat) : publishesShape (initActorState addr) :=
  ⟨[], rfl, fun c hc => absurd hc (List.not_mem_nil c)⟩

theorem publishesShape_step (s : ActorState) (m : DeviceMessage)
    (h : publishesShape s) : publishesShape (actorStep s m) := by
  have hp : publishesShape (processMessage s m) := by
    rcases h with ⟨rest, he, hr⟩
    refine ⟨rest, ?_, hr⟩
    rw [processMessage_publishes, processMessage_address]
    exact he
  unfold actorStep
  set t := processMessage s m with ht
  rcases hp with ⟨rest, he, hr⟩
  rcases arbitrate_cases t with ⟨⟨_, haddr, _, _⟩, hA | hB⟩
  · rcases hA with ⟨_, _, hpub⟩
    refine ⟨rest, ?_, hr⟩
    rw [hpub, haddr]
    exact he
  · rcases hB with ⟨_, _, adapter, _, _, _, hpub⟩
    refine ⟨rest ++ (monitor_itag_button t.device_address adapter.device).publishes, ?_, ?_⟩
    · rw [hpub, haddr, he]
      rfl
    · intro c hc
      rcases List.mem_append.mp hc with h1 | h2
      · exact hr c h1
      · exact monitor_publishes_not_retained _ _ c h2

theorem publishesShape_run (addr : List Nat) (msgs : List DeviceMessage) :
    publishesShape (runActor addr msgs) := by
  unfold runActor
  have : ∀ (l : List DeviceMessage) (s : ActorState), publishesShape s →
      publishesShape (l.foldl actorStep s) := by
    intro l
    induction l with
    | nil => intro s hs; exact hs
    | cons m l ih => intro s hs; exact ih _ (publishesShape_step s m hs)
  exact this msgs _ (publishesShape_init addr)

theorem run_address (addr : List Nat) (msgs : List DeviceMessage) :
    (runActor addr msgs).device_address = addr := by
  unfold runActor
  have : ∀ (l : List DeviceMessage) (s : ActorState),
      (l.foldl actorStep s).device_address = s.device_address := by
    intro l
    induction l with
    | nil => intro s; rfl
    | cons m l ih =>
      intro s
      rw [List.foldl_cons, ih, actorStep, (arbitrate_cases _).1.2.1, processMessage_address]
  exact this msgs _

/-- All `try_publish` attempts issued for a device over a mailbox trace, in
program order (spawned sessions' attempts appended at their spawn). -/
def actorAttempts (addr : List Nat) (msgs : List DeviceMessage) : List PublishAttempt :=
  ((runActor addr msgs).publishes).flatMap PublishCall.attempts

/-- C4 fails as stated: at actor creation the single retained
`publish_device` call also publishes the button topic, so the run with no
messages already contains a retained button-topic publish. -/
theorem actor_first_button_publish_retained_cex :
    (actorAttempts [26, 2, 255, 0, 179, 12] []).get? 1 =
      some { topic := "itag/1a02ff00b30c/button/click", qos := QoS.atLeastOnce,
             retained := true, payload := [48] } := by
  rfl

/-- C4 (amended): over any mailbox trace, the attempt stream starts with the
creation-time retained call — a retained presence publish encoding
present=false followed by a retained button publish encoding not-clicked —
and every later attempt (presence or button) is non-retained. -/
theorem actor_publish_retained_shape :
    ∀ (addr : List Nat) (msgs : List DeviceMessage),
      ∃ rest, actorAttempts addr msgs =
        { topic := "itag/" ++ deviceIdStr addr ++ "/presence", qos := QoS.atLeastOnce,
          retained := true, payload := falseBytes } ::
        { topic := "itag/" ++ deviceIdStr addr ++ "/button/click", qos := QoS.atLeastOnce,
          retained := true, payload := falseBytes } :: rest ∧
        ∀ p ∈ rest, p.retained = false := by
  intro addr msgs
  rcases publishesShape_run addr msgs with ⟨rest, he, hr⟩
  refine ⟨rest.flatMap PublishCall.attempts, ?_, ?_⟩
  · unfold actorAttempts
    rw [he, run_address]
    rfl
  · intro p hp
    rcases List.mem_flatMap.mp hp with ⟨c, hc, hpc⟩
    have := publish_device_retained_eq c.device_id c.retained c.is_present
      c.is_button_clicked p hpc
    rw [this, hr c hc]

/-- C4 amended claim at a concrete input: the first two attempts of the
empty trace for a concrete address, with everything after them
non-retained. -/
theorem actor_publish_retained_shape_witness :
    ∃ rest, actorAttempts [26, 2, 255, 0, 179, 12] [] =
      { topic := "itag/" ++ deviceIdStr [26, 2, 255, 0, 179, 12] ++ "/presence",
        qos := QoS.atLeastOnce, retained := true, payload := falseBytes } ::
      { topic := "itag/" ++ deviceIdStr [26, 2, 255, 0, 179, 12] ++ "/button/click",
        qos := QoS.atLeastOnce, retained := true, payload := falseBytes } :: rest ∧
      ∀ p ∈ rest, p.retained = false :=
  actor_publish_retained_shape [26, 2, 255, 0, 179, 12] []

/-! ## Configuration claims (C5) -/

theorem parseAdapters_empty : parseAdapters "" = [] := by decide

/-- C5 fails as stated: with the `adapters` key absent from `[bluetooth]`,
`Config::read` does not succeed — it returns the missing-key error (with the
format hint appended). -/
theorem config_adapters_absent_fails_cex :
    Config.read (Except.ok { mqtt_host := some "localhost",
                             mqtt_port := Except.ok (some 1883),
                             bt_adapters := none }) =
      Except.error ("Missing 'adapters' in [bluetooth] block" ++
        ".\nHint: Format must be:\n[mqtt]\nhost=xxx\nport=xxx\n[bluetooth]\nadapters=hci1,xxx\n") := by
  rfl

/-- C5 (amended): with the `adapters` key present but empty, `Config::read`
succeeds with an empty whitelist and `is_adapter_allowed` accepts every
adapter name; with the key absent, `Config::read` fails with the missing-key
error. -/
theorem config_adapters_empty_allows_all :
    (∀ (host : String) (port : Int), 0 ≤ port → port < 65536 →
      Config.read (Except.ok { mqtt_host := some host, mqtt_port := Except.ok (some port),
                               bt_adapters := some "" }) =
        Except.ok { mqtt_host := host, mqtt_port := port.toNat, bt_adapters := [] })
    ∧ (∀ c : Config, c.bt_adapters = [] → ∀ name, c.is_adapter_allowed name = true)
    ∧ (∀ (host : String) (port : Int),
      Config.read (Except.ok { mqtt_host := some host, mqtt_port := Except.ok (some port),
                               bt_adapters := none }) =
        Except.error ("Missing 'adapters' in [bluetooth] block" ++
          ".\nHint: Format must be:\n[mqtt]\nhost=xxx\nport=xxx\n[bluetooth]\nadapters=hci1,xxx\n")) := by
  refine ⟨?_, ?_, ?_⟩
  · intro host port h0 h1
    unfold Config.read Config.parse_config
    simp [h0, h1, parseAdapters_empty]
  · intro c hc name
    unfold Config.is_adapter_allowed
    rw [hc]
    rfl
  · intro host port
    rfl

/-- C5 at concrete inputs: an empty `adapters` value yields a config
allowing any adapter (here `hci0`); an absent key yields the error. -/
theorem config_adapters_empty_allows_all_witness :
    Config.read (Except.ok { mqtt_host := some "localhost",
                             mqtt_port := Except.ok (some 1883),
                             bt_adapters := some "" }) =
      Except.ok { mqtt_host := "localhost", mqtt_port := (1883 : Int).toNat,
                  bt_adapters := [] } ∧
    Config.is_adapter_allowed
      { mqtt_host := "localhost", mqtt_port := 1883, bt_adapters := [] } "hci0" = true :=
  ⟨config_adapters_empty_allows_all.1 "localhost" 1883 (by decide) (by decide),
   config_adapters_empty_allows_all.2.1
     { mqtt_host := "localhost", mqtt_port := 1883, bt_adapters := [] } rfl "hci0"⟩

/-! ## Session connect timeout (C6) -/

/-- C6: a session whose device is not yet connected and whose connect races
past the 5-second timer issues exactly one disconnect attempt, publishes
nothing (neither present nor absent), terminates with an error — and the
spawned task wrapper sends `ButtonMonitorExit` to the actor mailbox in every
outcome. -/
theorem session_connect_timeout :
    (∀ (addr : List Nat) (dev : DeviceHandle),
        dev.is_connected = Except.ok false →
        dev.connect = ConnectOutcome.timedOut →
        (monitor_itag_button addr dev).publishes = [] ∧
        (monitor_itag_button addr dev).disconnect_attempts = 1 ∧
        ∃ e, (monitor_itag_button addr dev).result = Except.error e)
    ∧ (∀ (addr : List Nat) (dev : DeviceHandle),
        (sessionTask addr dev).2 = [DeviceMessage.buttonMonitorExit])
    ∧ connect_timeout_secs = 5 := by
  refine ⟨?_, fun addr dev => rfl, rfl⟩
  intro addr dev hic hconn
  unfold monitor_itag_button connectPhase
  simp only [hic, hconn]
  cases hd : dev.disconnect with
  | ok u => exact ⟨rfl, rfl, _, rfl⟩
  | error e2 => exact ⟨rfl, rfl, e2, rfl⟩

/-- Fixture: a not-yet-connected device whose connect attempt exceeds the
timeout. -/
def timeoutDevice : DeviceHandle :=
  { testDevice (Except.ok (some (-50))) with
      is_connected := Except.ok false
      connect := ConnectOutcome.timedOut }

/-- C6 at a concrete input: the timed-out session's observable outcome. -/
theorem session_connect_timeout_witness :
    (monitor_itag_button [0, 0, 0, 0, 0, 1] timeoutDevice).publishes = [] ∧
    (monitor_itag_button [0, 0, 0, 0, 0, 1] timeoutDevice).disconnect_attempts = 1 ∧
    ∃ e, (monitor_itag_button [0, 0, 0, 0, 0, 1] timeoutDevice).result = Except.error e :=
  session_connect_timeout.1 [0, 0, 0, 0, 0, 1] timeoutDevice rfl rfl

/-! ## Button notification pulse (C7) -/

/-- The publishes one served loop arm contributes: a button notification
publishes pressed then released (both non-retained); a property event
publishes nothing. -/
def buttonPulse (addr : List Nat) (e : LoopEvent) : List PublishCall :=
  match e with
  | LoopEvent.buttonNotify _ =>
    [{ device_id := addr, retained := false, is_present := true, is_button_clicked := true },
     { device_id := addr, retained := false, is_present := true, is_button_clicked := false }]
  | LoopEvent.propertyEvent => []

theorem sessionLoop_eq_flatMap (addr : List Nat) (evs : List LoopEvent) :
    sessionLoop addr evs = evs.flatMap (buttonPulse addr) := by
  induction evs with
  | nil => rfl
  | cons e evs ih => cases e <;> simp [sessionLoop, buttonPulse, ih]

/-- C7: in a session that got past connection and stream setup, the publish
sequence is exactly: the present record, then — per received button
notification, in stream order — the click=true record immediately followed
by the click=false record (a pair per notification, nothing for other
events), then the absent record; and no session publish is ever retained. -/
theorem session_button_pulse_pairs :
    ∀ (addr : List Nat) (dev : DeviceHandle) (d : Nat),
      connectPhase dev = (none, d) →
      dev.events = Except.ok () →
      dev.button_notify = Except.ok () →
      (monitor_itag_button addr dev).publishes =
        { device_id := addr, retained := false, is_present := true,
          is_button_clicked := false } ::
        (dev.loop_events.flatMap (buttonPulse addr) ++
          [{ device_id := addr, retained := false, is_present := false,
             is_button_clicked := false }]) ∧
      ∀ c ∈ (monitor_itag_button addr dev).publishes, c.retained = false := by
  intro addr dev d hcp hev hbn
  refine ⟨?_, monitor_publishes_not_retained addr dev⟩
  unfold monitor_itag_button
  simp only [hcp, hev, hbn]
  rw [sessionLoop_eq_flatMap]

/-- Fixture: a connected device whose streams deliver two button
notifications around an ignored property event. -/
def chattyDevice : DeviceHandle :=
  { testDevice (Except.ok (some (-50))) with
      loop_events := [LoopEvent.buttonNotify [1], LoopEvent.propertyEvent,
                      LoopEvent.buttonNotify []] }

/-- C7 at a concrete input: two notifications produce exactly two ordered
non-retained pairs between the present and absent records. -/
theorem session_button_pulse_pairs_witness :
    (monitor_itag_button [0, 0, 0, 0, 0, 1] chattyDevice).publishes =
      { device_id := [0, 0, 0, 0, 0, 1], retained := false, is_present := true,
        is_button_clicked := false } ::
      (chattyDevice.loop_events.flatMap (buttonPulse [0, 0, 0, 0, 0, 1]) ++
        [{ device_id := [0, 0, 0, 0, 0, 1], retained := false, is_present := false,
           is_button_clicked := false }]) ∧
    ∀ c ∈ (monitor_itag_button [0, 0, 0, 0, 0, 1] chattyDevice).publishes,
      c.retained = false :=
  session_button_pulse_pairs [0, 0, 0, 0, 0, 1] chattyDevice 0 rfl rfl rfl

/-! ## Poller validation dispatch (C8) -/

/-- C8: a device-added event dispatches discovered iff the name read
succeeds with a value that is "ITAG" after ASCII-uppercasing and trimming
and the RSSI read succeeds with a value present; it dispatches a loss iff
the name read errors, or the name matches but the RSSI read errors or is
absent; it is ignored iff the name reads successfully as missing or as a
non-matching value. -/
theorem device_validation_dispatch :
    ∀ dev : DeviceHandle,
      (on_device_discovered dev = DispatchOutcome.discovered ↔
        (∃ n, dev.name = Except.ok (some n) ∧ rustTrim (toAsciiUppercase n) = "ITAG") ∧
        (∃ r, dev.rssi = Except.ok (some r)))
      ∧ (on_device_discovered dev = DispatchOutcome.lost ↔
        (∃ e, dev.name = Except.error e) ∨
        ((∃ n, dev.name = Except.ok (some n) ∧ rustTrim (toAsciiUppercase n) = "ITAG") ∧
          (dev.rssi = Except.ok none ∨ ∃ e, dev.rssi = Except.error e)))
      ∧ (on_device_discovered dev = DispatchOutcome.ignored ↔
        dev.name = Except.ok none ∨
        (∃ n, dev.name = Except.ok (some n) ∧ rustTrim (toAsciiUppercase n) ≠ "ITAG")) := by
  intro dev
  cases hn : dev.name with
  | error e =>
    refine ⟨?_, ?_, ?_⟩ <;> simp [on_device_discovered, hn]
  | ok vo =>
    cases vo with
    | none =>
      refine ⟨?_, ?_, ?_⟩ <;> simp [on_device_discovered, hn]
    | some n =>
      by_cases hm : rustTrim (toAsciiUppercase n) = "ITAG"
      · cases hr : dev.rssi with
        | error e =>
          refine ⟨?_, ?_, ?_⟩ <;> simp [on_device_discovered, hn, hm, hr]
        | ok ro =>
          cases ro with
          | none =>
            refine ⟨?_, ?_, ?_⟩ <;> simp [on_device_discovered, hn, hm, hr]
          | some r =>
            refine ⟨?_, ?_, ?_⟩ <;> simp [on_device_discovered, hn, hm, hr]
      · refine ⟨?_, ?_, ?_⟩ <;> simp [on_device_discovered, hn, hm]

/-- C8 at concrete inputs: a device named `" iTag "` at −60 dBm dispatches
discovered; one whose name read fails dispatches a loss. -/
theorem device_validation_dispatch_witness :
    on_device_discovered (testDevice (Except.ok (some (-60)))) =
      DispatchOutcome.discovered ∧
    on_device_discovered
      { testDevice (Except.ok (some (-60))) with
          name := Except.error { kind := ErrorKind.other, message := "gone" } } =
      DispatchOutcome.lost :=
  ⟨(device_validation_dispatch (testDevice (Except.ok (some (-60))))).1.mpr
      ⟨⟨"ITAG", rfl, by decide⟩, ⟨-60, rfl⟩⟩,
   (device_validation_dispatch
      { testDevice (Except.ok (some (-60))) with
          name := Except.error { kind := ErrorKind.other, message := "gone" } }).2.1.mpr
      (Or.inl ⟨{ kind := ErrorKind.other, message := "gone" }, rfl⟩)⟩

/-! ## Topic and payload format (C9, C10) -/

/-- Numeric value of a lowercase hex digit character. -/
def hexCharVal (c : Char) : Nat :=
  if c.toNat ≥ 97 then c.toNat - 87 else c.toNat - 48

theorem hexDigit_spec : ∀ n, n < 16 →
    hexDigit n ∈ ("0123456789abcdef").data ∧ hexCharVal (hexDigit n) = n := by decide

/-- C9: topics are `itag/<hex>/presence` and `itag/<hex>/button/click` with
the id rendered byte-by-byte; each byte renders as exactly two lowercase hex
digits whose value decodes back to the byte (zero-padded); every payload is
the single ASCII byte `'1'` or `'0'`; and the example bytes render as
`itag/1a02ff00b30c/presence`. -/
theorem publish_topics_hex_format :
    (∀ (device_id : List Nat) (r p b : Bool),
        (publish_device device_id r p b).map PublishAttempt.topic =
          ["itag/" ++ deviceIdStr device_id ++ "/presence",
           "itag/" ++ deviceIdStr device_id ++ "/button/click"] ∧
        ∀ a ∈ publish_device device_id r p b,
          a.payload = trueBytes ∨ a.payload = falseBytes)
    ∧ (∀ b : Nat, b < 256 → ∃ c1 c2,
        byteHex b = String.mk [c1, c2] ∧
        c1 ∈ ("0123456789abcdef").data ∧ c2 ∈ ("0123456789abcdef").data ∧
        16 * hexCharVal c1 + hexCharVal c2 = b)
    ∧ (∀ (r p b : Bool),
        (publish_device [26, 2, 255, 0, 179, 12] r p b).map PublishAttempt.topic =
          ["itag/1a02ff00b30c/presence", "itag/1a02ff00b30c/button/click"]) := by
  refine ⟨?_, ?_, ?_⟩
  · intro device_id r p b
    refine ⟨rfl, ?_⟩
    intro a ha
    simp only [publish_device, List.mem_cons, List.not_mem_nil, or_false] at ha
    rcases ha with h | h <;> rw [h] <;> cases p <;> cases b <;> simp
  · intro b hb
    have h1 : b / 16 % 16 < 16 := Nat.mod_lt _ (by norm_num)
    have h2 : b % 16 < 16 := Nat.mod_lt _ (by norm_num)
    obtain ⟨m1, v1⟩ := hexDigit_spec _ h1
    obtain ⟨m2, v2⟩ := hexDigit_spec _ h2
    refine ⟨hexDigit (b / 16 % 16), hexDigit (b % 16), rfl, m1, m2, ?_⟩
    rw [v1, v2]
    omega
  · intro r p b
    rfl

/-- C9 at a concrete input: the byte `0xB3` renders as two lowercase hex
digits decoding back to 179. -/
theorem publish_topics_hex_format_witness :
    ∃ c1 c2, byteHex 179 = String.mk [c1, c2] ∧
      c1 ∈ ("0123456789abcdef").data ∧ c2 ∈ ("0123456789abcdef").data ∧
      16 * hexCharVal c1 + hexCharVal c2 = 179 :=
  publish_topics_hex_format.2.1 179 (by decide)

/-- C10: every `publish_device` call makes exactly two publish attempts —
presence topic then button topic — both carrying the call's retained flag
and at-least-once QoS, with the presence payload encoding `is_present` and
the button payload encoding `is_button_clicked`. -/
theorem publish_device_always_pairs :
    ∀ (device_id : List Nat) (r p b : Bool),
      (publish_device device_id r p b).length = 2 ∧
      (∀ a ∈ publish_device device_id r p b, a.retained = r ∧ a.qos = QoS.atLeastOnce) ∧
      (publish_device device_id r p b).map PublishAttempt.topic =
        ["itag/" ++ deviceIdStr device_id ++ "/presence",
         "itag/" ++ deviceIdStr device_id ++ "/button/click"] ∧
      (publish_device device_id r p b).map PublishAttempt.payload =
        [if p then trueBytes else falseBytes, if b then trueBytes else falseBytes] := by
  intro device_id r p b
  refine ⟨rfl, ?_, rfl, rfl⟩
  intro a ha
  simp only [publish_device, List.mem_cons, List.not_mem_nil, or_false] at ha
  rcases ha with h | h <;> rw [h] <;> exact ⟨rfl, rfl⟩

/-- C10 at a concrete input: a non-retained present publish for the example
address makes exactly the presence and button attempts. -/
theorem publish_device_always_pairs_witness :
    (publish_device [26, 2, 255, 0, 179, 12] false true false).length = 2 ∧
    (∀ a ∈ publish_device [26, 2, 255, 0, 179, 12] false true false,
      a.retained = false ∧ a.qos = QoS.atLeastOnce) ∧
    (publish_device [26, 2, 255, 0, 179, 12] false true false).map PublishAttempt.topic =
      ["itag/" ++ deviceIdStr [26, 2, 255, 0, 179, 12] ++ "/presence",
       "itag/" ++ deviceIdStr [26, 2, 255, 0, 179, 12] ++ "/button/click"] ∧
    (publish_device [26, 2, 255, 0, 179, 12] false true false).map PublishAttempt.payload =
      [if true then trueBytes else falseBytes, if false then trueBytes else falseBytes] :=
  publish_device_always_pairs [26, 2, 255, 0, 179, 12] false true false

end Itag2Mqttd
